import Mathlib

/-
  Verification development for the air-side / refrigerant heat-load calculator
  repository (two near-duplicate Streamlit scripts:
  `air_side_area_pressdrop_cond_refrig_heat_load.py`, referred to below as the
  MAIN script, and `air_side_area_pressdrop_cond_refrig_heat_load(1).py`,
  referred to below as the RICH script).

  Modelling conventions:
  * Python floats are modelled as exact rationals (ℚ).  The float constant
    `math.pi` is modelled by its exact IEEE-754 double value `pi_float`.
  * A Python expression that can raise (division by zero, a CoolProp `PropsSI`
    call failing) is modelled in the `Option` monad: `none` is an uncaught
    exception / a surfaced error.
  * CoolProp `PropsSI` is an external oracle; it is modelled as a record of
    functions returning `Option ℚ` (`none` models the call raising).
-/

/-- Python division `a / b`: raises `ZeroDivisionError` when `b = 0`
(modelled as `none`), otherwise exact division. -/
def pyDiv (a b : ℚ) : Option ℚ :=
  if b = 0 then none else some (a / b)

/-- The fixed air-property table of `air_properties_lookup` (MAIN script,
lines 11-14): rows are (temperature in Celsius, density rho, viscosity mu). -/
def airRows : List (ℚ × ℚ × ℚ) :=
  [ (0,  1293/1000, 171/10000000),
    (10, 1247/1000, 175/10000000),
    (20, 1204/1000, 181/10000000),
    (30, 1165/1000, 187/10000000),
    (40, 1127/1000, 192/10000000),
    (50, 1093/1000, 198/10000000),
    (60, 1060/1000, 203/10000000) ]

/-- The segments visited by the lookup loop `for i in range(len(T_table)-1)`:
entry `i` pairs row `i` of `airRows` with row `i+1`. -/
def airSegs : List ((ℚ × ℚ × ℚ) × (ℚ × ℚ × ℚ)) :=
  [ ((0,  1293/1000, 171/10000000), (10, 1247/1000, 175/10000000)),
    ((10, 1247/1000, 175/10000000), (20, 1204/1000, 181/10000000)),
    ((20, 1204/1000, 181/10000000), (30, 1165/1000, 187/10000000)),
    ((30, 1165/1000, 187/10000000), (40, 1127/1000, 192/10000000)),
    ((40, 1127/1000, 192/10000000), (50, 1093/1000, 198/10000000)),
    ((50, 1093/1000, 198/10000000), (60, 1060/1000, 203/10000000)) ]

/-- One pass of the lookup loop body: if the clamped temperature lies in the
segment `[t0, t1]`, return the linearly interpolated `(rho, mu)` pair,
otherwise continue with the remaining segments (MAIN script, lines 16-21). -/
def scanSegs : List ((ℚ × ℚ × ℚ) × (ℚ × ℚ × ℚ)) → ℚ → Option (ℚ × ℚ)
  | [], _ => none
  | ((t0, r0, m0), (t1, r1, m1)) :: rest, T =>
      if t0 ≤ T ∧ T ≤ t1 then
        some (r0 + (T - t0) / (t1 - t0) * (r1 - r0),
              m0 + (T - t0) / (t1 - t0) * (m1 - m0))
      else scanSegs rest T

/-- `air_properties_lookup(T_C)` (MAIN script, lines 11-22): clamp the input
temperature to `[0, 60]`, then linearly interpolate density and viscosity
between the two bracketing table rows.  The trailing `return` of the last
table row is kept as the fallthrough of the loop.  Returns `(rho, mu)`. -/
def air_properties_lookup (T_C : ℚ) : ℚ × ℚ :=
  let T := max 0 (min 60 T_C)
  (scanSegs airSegs T).getD (1060/1000, 203/10000000)

/-- State of the primary air-property provider (CoolProp) for one invocation:
`absent` models `coolprop_available = False`; `throws` models the `PropsSI`
air calls raising (they are not wrapped in any try/except in the MAIN
script); `returns rho mu muNaN` models a successful call, with `muNaN`
modelling `math.isnan(mu)` (ℚ has no NaN value). -/
inductive AirProviderStatus where
  | absent
  | throws
  | returns (rho mu : ℚ) (muNaN : Bool)

/-- Air-property selection of the MAIN script, lines 44-51: with CoolProp
absent use the fallback table; with CoolProp present, use its values unless
the returned viscosity is non-positive or NaN, in which case fall back.  A
raising provider call is an uncaught exception (`none`). -/
def selectAirProps : AirProviderStatus → ℚ → Option (ℚ × ℚ)
  | .absent, T => some (air_properties_lookup T)
  | .throws, _ => none
  | .returns rho mu muNaN, T =>
      if mu ≤ 0 ∨ muNaN = true then some (air_properties_lookup T)
      else some (rho, mu)

/-- Inputs of `calculate_air_side_results` (MAIN script, line 24), in the
source units (millimetres, fins per inch, cubic metres per hour, ...). -/
structure AirInputs where
  tube_od_mm : ℚ
  tube_pitch_mm : ℚ
  row_pitch_mm : ℚ
  fin_thickness_mm : ℚ
  fpi : ℚ
  num_rows : ℕ
  face_width_m : ℚ
  face_height_m : ℚ
  air_flow_cmh : ℚ
  air_temp_C : ℚ
  free_flow_percent : ℚ
deriving DecidableEq

/-- The result dictionary of `calculate_air_side_results` (MAIN script,
lines 70-91), with one field per computed entry. -/
structure AirSideResults where
  tubes_per_row : ℤ
  total_tubes : ℤ
  fin_depth_m : ℚ
  tube_ext_area : ℚ
  net_fin_area : ℚ
  total_air_side_area : ℚ
  free_flow_area : ℚ
  face_velocity : ℚ
  u_max : ℚ
  rho : ℚ
  mu : ℚ
  D_h : ℚ
  m_dot : ℚ
  G : ℚ
  Re : ℚ
  f : ℚ
  dP : ℚ
deriving DecidableEq

/-- Exact value of the IEEE-754 double `math.pi` used by the source. -/
def pi_float : ℚ := 884279719003555 / 281474976710656

/-- Mirrors `tubes_per_row = math.floor(face_width_m / tube_pitch_m)`
(MAIN script line 33, RICH script line 35), for a nonzero tube pitch. -/
def tubes_per_row_calc (face_width_m tube_pitch_m : ℚ) : ℤ :=
  ⌊face_width_m / tube_pitch_m⌋

/-- Mirrors `total_tubes = tubes_per_row * num_rows` (MAIN script line 34,
RICH script line 36). -/
def total_tubes_calc (tubes_per_row : ℤ) (num_rows : ℕ) : ℤ :=
  tubes_per_row * num_rows

/-- Mirrors `u_max = face_velocity * tube_pitch_m / (tube_pitch_m - tube_od_m)
if (tube_pitch_m - tube_od_m) > 0 else 0` (MAIN script line 57). -/
def u_max_calc (face_velocity tube_pitch_m tube_od_m : ℚ) : ℚ :=
  if tube_pitch_m - tube_od_m > 0 then
    face_velocity * tube_pitch_m / (tube_pitch_m - tube_od_m)
  else 0

/-- Mirrors `Re = (rho * u_max * tube_od_m) / mu if mu > 0 else 0`
(MAIN script line 58). -/
def Re_od_calc (rho u_max tube_od_m mu : ℚ) : ℚ :=
  if mu > 0 then rho * u_max * tube_od_m / mu else 0

/-- Mirrors `D_h = (4 * A_min_cell) / P_wet_cell if P_wet_cell > 0 else 0`
with `A_min_cell = passage_height * passage_width` and
`P_wet_cell = 2 * (passage_height + passage_width)` (MAIN script lines 62-64). -/
def hydraulic_diameter (passage_height passage_width : ℚ) : ℚ :=
  if 2 * (passage_height + passage_width) > 0 then
    4 * (passage_height * passage_width) / (2 * (passage_height + passage_width))
  else 0

/-- Mirrors `dP = f * (flow_depth / D_h) * (G**2) / (2 * rho) if D_h > 0 else 0`
with the fixed friction factor `f = 0.03` (MAIN script lines 66-68).  The
final division by `2 * rho` is an unguarded Python division. -/
def dP_const_f (flow_depth D_h G rho : ℚ) : Option ℚ :=
  if D_h > 0 then pyDiv ((3/100) * (flow_depth / D_h) * G ^ 2) (2 * rho)
  else some 0

/-- `calculate_air_side_results` (MAIN script, lines 24-91).  Every division
whose denominator can be zero is a `pyDiv`; a `none` result models the
function raising an uncaught exception. -/
def calculate_air_side_results (provider : AirProviderStatus) (inp : AirInputs) :
    Option AirSideResults := do
  let tube_od_m := inp.tube_od_mm / 1000
  let tube_pitch_m := inp.tube_pitch_mm / 1000
  let row_pitch_m := inp.row_pitch_mm / 1000
  let fin_thickness_m := inp.fin_thickness_mm / 1000
  let fins_per_m := inp.fpi * (393701/10000)
  let fin_spacing_m ← pyDiv 1 fins_per_m
  let frontal_area_m2 := inp.face_width_m * inp.face_height_m
  let fin_depth_m := (inp.num_rows : ℚ) * row_pitch_m
  let tpr_q ← pyDiv inp.face_width_m tube_pitch_m
  let tubes_per_row : ℤ := ⌊tpr_q⌋
  let total_tubes : ℤ := tubes_per_row * (inp.num_rows : ℤ)
  let tube_ext_area := (total_tubes : ℚ) * (pi_float * tube_od_m)
  let fin_area_per_fin := 2 * inp.face_width_m * fin_depth_m
  let total_gross_fin_area := fin_area_per_fin * fins_per_m
  let hole_area_per_tube := (pi_float / 4) * tube_od_m ^ 2
  let total_hole_area := hole_area_per_tube * (total_tubes : ℚ) * fins_per_m
  let net_fin_area := total_gross_fin_area - total_hole_area
  let total_air_side_area := (tube_ext_area + net_fin_area) * inp.face_height_m
  let face_velocity ← pyDiv (inp.air_flow_cmh / 3600) frontal_area_m2
  let rm ← selectAirProps provider inp.air_temp_C
  let rho := rm.1
  let mu := rm.2
  let air_flow_m3s := inp.air_flow_cmh / 3600
  let m_dot := rho * air_flow_m3s
  let free_flow_area := frontal_area_m2 * (inp.free_flow_percent / 100)
  let G ← pyDiv m_dot free_flow_area
  let u_max := u_max_calc face_velocity tube_pitch_m tube_od_m
  let Re := Re_od_calc rho u_max tube_od_m mu
  let passage_height := tube_pitch_m - tube_od_m
  let passage_width := fin_spacing_m - fin_thickness_m
  let D_h := hydraulic_diameter passage_height passage_width
  let flow_depth := (inp.num_rows : ℚ) * row_pitch_m
  let dP ← dP_const_f flow_depth D_h G rho
  pure ⟨tubes_per_row, total_tubes, fin_depth_m, tube_ext_area, net_fin_area,
        total_air_side_area, free_flow_area, face_velocity, u_max, rho, mu,
        D_h, m_dot, G, Re, 3/100, dP⟩

/-- Mirrors `air_velocity_ms = air_flow_m3s / net_free_flow_area if
net_free_flow_area > 0 else 0` (RICH script, line 49): the velocity division of
the RICH script is guarded and quietly yields 0. -/
def air_velocity_ms (air_flow_m3s net_free_flow_area : ℚ) : ℚ :=
  if net_free_flow_area > 0 then air_flow_m3s / net_free_flow_area else 0

/-- The keys of `a_lookup = {8: 7.15, 10: 8.5, 12: 9.63, 13.5: 11.0}` in
dictionary insertion order (RICH script, line 56). -/
def a_keys : List ℚ := [8, 10, 12, 27/2]

/-- Python `min(keys, key=lambda x: abs(x - target))`: scan the list keeping
the current best, replacing it only on a strictly smaller distance, so ties
resolve to the earlier element (RICH script, line 57). -/
def min_by_dist (target : ℚ) : List ℚ → ℚ
  | [] => 0
  | k :: ks => ks.foldl (fun best x => if |x - target| < |best - target| then x else best) k

/-- `closest_fpi = min(a_lookup.keys(), key=lambda x: abs(x - fpi))`
(RICH script, line 57). -/
def closest_fpi (fpi : ℚ) : ℚ := min_by_dist fpi a_keys

/-- The values of the `a_lookup` dictionary (RICH script, line 56). -/
def a_lookup_val (k : ℚ) : ℚ :=
  if k = 8 then 143/20 else if k = 10 then 17/2 else if k = 12 then 963/100 else 11

/-- `a_value = a_lookup[closest_fpi]` (RICH script, line 58). -/
def a_value (fpi : ℚ) : ℚ := a_lookup_val (closest_fpi fpi)

/-- `dp_per_row = a_value * (air_velocity_ms ** 1.56)` (RICH script, line 60).
The float power `v ** 1.56` has no exact rational counterpart, so it is
abstracted as a function argument `vpow156` (the map `v ↦ v ** 1.56`). -/
def dp_per_row (vpow156 : ℚ → ℚ) (fpi v : ℚ) : ℚ :=
  a_value fpi * vpow156 v

/-- `dp_total = dp_per_row * num_rows` (RICH script, line 61). -/
def dp_total (vpow156 : ℚ → ℚ) (fpi v : ℚ) (num_rows : ℕ) : ℚ :=
  dp_per_row vpow156 fpi v * num_rows

/-- The CoolProp `PropsSI` oracle for one fixed fluid and condensing pressure:
`T_at_Q q` models `PropsSI("T", "P", P, "Q", q, fluid)`, `h_at_T T` models
`PropsSI("H", "P", P, "T", T, fluid)`, and `h_at_Q q` models
`PropsSI("H", "P", P, "Q", q, fluid)`; `none` models the call raising. -/
structure RefOracle where
  T_at_Q : ℚ → Option ℚ
  h_at_T : ℚ → Option ℚ
  h_at_Q : ℚ → Option ℚ

/-- The displayed outputs of the RICH and first MAIN heat-load handlers.
`warn_no_subcool` records whether the handler emitted the
"No subcooling occurs" warning. -/
structure HeatLoad where
  T_sat : ℚ
  h1 : ℚ
  h2 : ℚ
  h3 : ℚ
  h4 : ℚ
  Q_sensible : ℚ
  Q_latent : ℚ
  Q_subcool : ℚ
  Q_total : ℚ
  warn_no_subcool : Bool
deriving DecidableEq

/-- The refrigerant heat-load block of the RICH script (lines 92-119): all
property calls are inside one try/except, so any raising call aborts the
whole block (`none`).  The warning is emitted exactly when `T3 >= T_sat`
(line 118). -/
def heat_load_rich (o : RefOracle) (m_dot T1 T3 : ℚ) : Option HeatLoad :=
  match o.T_at_Q 0 with
  | none => none
  | some T_sat =>
    match (if T1 > T_sat then o.h_at_T T1 else o.h_at_Q 1) with
    | none => none
    | some h1 =>
      match o.h_at_Q 1 with
      | none => none
      | some h2 =>
        match o.h_at_Q 0 with
        | none => none
        | some h3 =>
          match (if T3 < T_sat then o.h_at_T T3 else some h3) with
          | none => none
          | some h4 =>
            some ⟨T_sat, h1, h2, h3, h4,
                  m_dot * (h1 - h2) / 1000,
                  m_dot * (h2 - h3) / 1000,
                  m_dot * (h3 - h4) / 1000,
                  m_dot * (h1 - h2) / 1000 + m_dot * (h2 - h3) / 1000
                    + m_dot * (h3 - h4) / 1000,
                  decide (T3 ≥ T_sat)⟩

/-- The first heat-load handler of the MAIN script (lines 127-147): the same
computation as the RICH block, but the handler never emits a
"no subcooling" warning, so `warn_no_subcool` is always `false`. -/
def heat_load_main (o : RefOracle) (m_dot T1 T3 : ℚ) : Option HeatLoad :=
  match o.T_at_Q 0 with
  | none => none
  | some T_sat =>
    match (if T1 > T_sat then o.h_at_T T1 else o.h_at_Q 1) with
    | none => none
    | some h1 =>
      match o.h_at_Q 1 with
      | none => none
      | some h2 =>
        match o.h_at_Q 0 with
        | none => none
        | some h3 =>
          match (if T3 < T_sat then o.h_at_T T3 else some h3) with
          | none => none
          | some h4 =>
            some ⟨T_sat, h1, h2, h3, h4,
                  m_dot * (h1 - h2) / 1000,
                  m_dot * (h2 - h3) / 1000,
                  m_dot * (h3 - h4) / 1000,
                  m_dot * (h1 - h2) / 1000 + m_dot * (h2 - h3) / 1000
                    + m_dot * (h3 - h4) / 1000,
                  false⟩

/-- Python condition `T_bubble and T1 > T_bubble` (MAIN script, line 204):
`T_bubble` is falsy when it is `None` or `0.0`; only then is the comparison
short-circuited away. -/
def bubbleAndGt (tb : Option ℚ) (T : ℚ) : Bool :=
  match tb with
  | none => false
  | some v => if v = 0 then false else decide (T > v)

/-- Python condition `T_bubble and T3 < T_bubble` (MAIN script, line 207). -/
def bubbleAndLt (tb : Option ℚ) (T : ℚ) : Bool :=
  match tb with
  | none => false
  | some v => if v = 0 then false else decide (T < v)

/-- Outputs of the second (safe_props) heat-load handler of the MAIN script;
that handler displays no saturation temperature and emits no warning. -/
structure SafeHeatLoad where
  h1 : ℚ
  h2 : ℚ
  h3 : ℚ
  h4 : ℚ
  Q_sensible : ℚ
  Q_latent : ℚ
  Q_subcool : ℚ
  Q_total : ℚ
deriving DecidableEq

/-- The error message raised by the second MAIN handler when an enthalpy is
missing (MAIN script, line 210). -/
def missingEnthalpyMsg : String :=
  "One or more enthalpy values could not be retrieved for the selected fluid."

/-- The second heat-load handler of the MAIN script (lines 191-215), built on
`safe_props` (lines 173-180, which turns a raising `PropsSI` enthalpy call
into `None`).  The `T_bubble` lookup sits in its own try/except whose
`except` clause is `pass`, so a failed saturation-temperature lookup leaves
`T_bubble = None` and the computation continues; only a `None` among the four
selected enthalpies raises the `ValueError` (line 210). -/
def heat_load_safe (o : RefOracle) (m_dot T1 T3 : ℚ) : Except String SafeHeatLoad :=
  let T_bubble := o.T_at_Q 0
  let h1 := if bubbleAndGt T_bubble T1 then o.h_at_T T1 else o.h_at_Q 1
  let h2 := o.h_at_Q 1
  let h3 := o.h_at_Q 0
  let h4 := if bubbleAndLt T_bubble T3 then o.h_at_T T3 else h3
  match h1, h2, h3, h4 with
  | some a, some b, some c, some d =>
      .ok ⟨a, b, c, d,
           m_dot * (a - b) / 1000,
           m_dot * (b - c) / 1000,
           m_dot * (c - d) / 1000,
           m_dot * (a - b) / 1000 + m_dot * (b - c) / 1000 + m_dot * (c - d) / 1000⟩
  | _, _, _, _ => .error missingEnthalpyMsg

/-- Modelled from the spec: the Reynolds-number / friction-factor table of the
mass-flux / interpolated-friction-factor strategy.  This strategy is described
in the spec (breakpoints 300…10000 mapping to 0.11…0.015, and the test
sentence names the entries (500, 0.08), (800, 0.06) and (1000, 0.052)) but no
script containing it is present under src/. -/
def reTable : List (ℚ × ℚ) :=
  [(300, 11/100), (500, 8/100), (800, 6/100), (1000, 52/1000), (10000, 15/1000)]

/-- Modelled from the spec: linear interpolation over a breakpoint table with
endpoint clamping (values are held constant outside the table range). -/
def interpTable : List (ℚ × ℚ) → ℚ → ℚ
  | [], _ => 0
  | [(_, f0)], _ => f0
  | (x0, f0) :: (x1, f1) :: rest, x =>
      if x ≤ x0 then f0
      else if x ≤ x1 then f0 + (x - x0) / (x1 - x0) * (f1 - f0)
      else interpTable ((x1, f1) :: rest) x

/-- Modelled from the spec: the interpolated friction factor of the mass-flux
strategy. -/
def friction_factor_interp (Re : ℚ) : ℚ := interpTable reTable Re

/-- Modelled from the spec: the mass-flux strategy pressure drop
`f * G^2 / (2 * density)`. -/
def dP_mass_flux (Re G rho : ℚ) : ℚ :=
  friction_factor_interp Re * G ^ 2 / (2 * rho)

/-- The input-validity invariants of the CoilGeometry data model as the spec
states them: all lengths positive, tube pitch above tube OD, at least one row,
positive fin density.  Used to state the claims that quantify over valid
geometries; all lengths are in metres. -/
structure CoilGeometry where
  tube_od_m : ℚ
  tube_pitch_m : ℚ
  row_pitch_m : ℚ
  fin_thickness_m : ℚ
  fin_density : ℚ
  num_rows : ℕ
  face_width_m : ℚ
  face_height_m : ℚ
deriving DecidableEq

/-- Validity of a `CoilGeometry` per the data-model invariants. -/
def validCoilGeometry (g : CoilGeometry) : Prop :=
  0 < g.tube_od_m ∧ 0 < g.tube_pitch_m ∧ 0 < g.row_pitch_m ∧
  0 < g.fin_thickness_m ∧ 0 < g.fin_density ∧ 1 ≤ g.num_rows ∧
  0 < g.face_width_m ∧ 0 < g.face_height_m ∧ g.tube_od_m < g.tube_pitch_m

instance (g : CoilGeometry) : Decidable (validCoilGeometry g) := by
  unfold validCoilGeometry; infer_instance

/-! ### Claims -/

/-- Claim C7 (confirmed): the row-power-law strategy computes pressure drop
per row as `A * velocity ** 1.56` (the float power abstracted as `vpow156`)
and total pressure drop as per-row times number of rows, with `A` taken from
the lookup table at the key nearest (by absolute difference) to the requested
fin density, without interpolation (fin densities 11.9 and 9.4 snap to the
table values of keys 12 and 10 respectively); fin density exactly 12 gives
`A = 9.63`. -/
theorem claim_C7 :
    a_value 12 = 963/100
    ∧ a_value (119/10) = 963/100
    ∧ a_value (94/10) = 17/2
    ∧ (∀ (vpow156 : ℚ → ℚ) (fpi v : ℚ) (n : ℕ),
        dp_total vpow156 fpi v n = dp_per_row vpow156 fpi v * n)
    ∧ (∀ (vpow156 : ℚ → ℚ) (fpi v : ℚ),
        dp_per_row vpow156 fpi v = a_lookup_val (closest_fpi fpi) * vpow156 v) := by
  refine ⟨?_, ?_, ?_, fun _ _ _ _ => rfl, fun _ _ _ => rfl⟩ <;>
    norm_num [a_value, a_lookup_val, closest_fpi, min_by_dist, a_keys, List.foldl, abs]

/-- Claim C10 (confirmed): a fin density exactly equidistant between two table
keys resolves to the key appearing earlier in the table order {8, 10, 12,
13.5}; fin density 9 selects key 8, giving `A = 7.15`.  The inputs 9, 11 and
12.75 are the only ones equidistant between two keys of minimal distance, so
the three instances below cover every tie. -/
theorem claim_C10 :
    closest_fpi 9 = 8 ∧ a_value 9 = 143/20
    ∧ closest_fpi 11 = 10 ∧ closest_fpi (51/4) = 12 := by
  refine ⟨?_, ?_, ?_, ?_⟩ <;>
    norm_num [a_value, a_lookup_val, closest_fpi, min_by_dist, a_keys, List.foldl, abs]

/-- Claim C8 (confirmed): the constant-friction-factor strategy computes the
hydraulic diameter as 4 * area / wetted-perimeter of the rectangular
fin-passage cross-section (the pipeline applies it to passage height
`tube pitch - tube OD` and passage width `fin spacing - fin thickness`), uses
the fixed friction factor 0.03, and returns
`f * (flow depth / D_h) * G^2 / (2 * density)`, which is exactly 0 whenever
`D_h ≤ 0`. -/
theorem claim_C8 :
    (∀ ph pw : ℚ, 0 < 2 * (ph + pw) →
        hydraulic_diameter ph pw = 4 * (ph * pw) / (2 * (ph + pw)))
    ∧ (∀ fd Dh G rho : ℚ, Dh ≤ 0 → dP_const_f fd Dh G rho = some 0)
    ∧ (∀ fd Dh G rho : ℚ, 0 < Dh → rho ≠ 0 →
        dP_const_f fd Dh G rho = some ((3/100) * (fd / Dh) * G ^ 2 / (2 * rho))) := by
  refine ⟨fun ph pw h => ?_, fun fd Dh G rho h => ?_, fun fd Dh G rho hD hr => ?_⟩
  · rw [hydraulic_diameter, if_pos h]
  · rw [dP_const_f, if_neg (not_lt.mpr h)]
  · rw [dP_const_f, if_pos hD, pyDiv, if_neg (by positivity)]

/-- Witness for claim C8: the hydraulic-diameter formula at passage dimensions
1 by 1, the quiet zero at a negative hydraulic diameter, and the pressure-drop
formula at concrete positive arguments. -/
theorem claim_C8_witness :
    hydraulic_diameter 1 1 = 4 * (1 * 1) / (2 * (1 + 1))
    ∧ dP_const_f 5 (-2) 3 1 = some 0
    ∧ dP_const_f 5 2 3 1 = some ((3/100) * (5 / 2) * 3 ^ 2 / (2 * 1)) :=
  ⟨claim_C8.1 1 1 (by norm_num), claim_C8.2.1 5 (-2) 3 1 (by norm_num),
   claim_C8.2.2 5 2 3 1 (by norm_num) (by norm_num)⟩

/-- Counterexample for claim C6: under the table the spec itself describes
(with entries (500, 0.08) and (800, 0.06) bracketing Re = 750), the
interpolated friction factor at Re = 750 is 19/300 = 0.0633..., which is not
within 1e-3 of the claimed 0.0667. -/
theorem claim_C6_counterexample :
    1/1000 < |friction_factor_interp 750 - 667/10000| := by
  have h : friction_factor_interp 750 = 19/300 := by
    norm_num [friction_factor_interp, reTable, interpTable]
  rw [h, abs_of_nonpos (by norm_num)]
  norm_num

/-- Claim C6 (corrected): the mass-flux strategy interpolates the friction
factor linearly over the fixed Reynolds-number table (breakpoints
300…10000 mapping to 0.11…0.015), holding the endpoint value outside the
table range; Re = 1000 yields exactly 0.052, Re = 750 yields 19/300 (about
0.0633, the linear interpolation between (500, 0.08) and (800, 0.06), not the
0.0667 the claim states), and the pressure drop is `f * G^2 / (2 * density)`. -/
theorem claim_C6 :
    friction_factor_interp 1000 = 52/1000
    ∧ friction_factor_interp 750 = 19/300
    ∧ (∀ Re : ℚ, Re ≤ 300 → friction_factor_interp Re = 11/100)
    ∧ (∀ Re : ℚ, 10000 ≤ Re → friction_factor_interp Re = 15/1000)
    ∧ (∀ Re G rho : ℚ, dP_mass_flux Re G rho
        = friction_factor_interp Re * G ^ 2 / (2 * rho)) := by
  refine ⟨?_, ?_, fun Re h => ?_, fun Re h => ?_, fun _ _ _ => rfl⟩
  · norm_num [friction_factor_interp, reTable, interpTable]
  · norm_num [friction_factor_interp, reTable, interpTable]
  · simp [friction_factor_interp, reTable, interpTable, h]
  · rcases eq_or_lt_of_le h with heq | hlt
    · rw [← heq]
      norm_num [friction_factor_interp, reTable, interpTable]
    · have h1 : ¬(Re ≤ 300) := by linarith
      have h2 : ¬(Re ≤ 500) := by linarith
      have h3 : ¬(Re ≤ 800) := by linarith
      have h4 : ¬(Re ≤ 1000) := by linarith
      have h5 : ¬(Re ≤ 10000) := by linarith
      simp [friction_factor_interp, reTable, interpTable, h1, h2, h3, h4, h5]

/-- Witness for claim C6: endpoint clamping evaluated below and above the
table range, via the theorem. -/
theorem claim_C6_witness :
    friction_factor_interp 100 = 11/100 ∧ friction_factor_interp 20000 = 15/1000 :=
  ⟨claim_C6.2.2.1 100 (by norm_num), claim_C6.2.2.2.1 20000 (by norm_num)⟩

/-- Counterexample for claim C5: a provider that throws is not caught by the
air-side computation — the property selection aborts (`none`) instead of
producing a fallback-table result. -/
theorem claim_C5_counterexample :
    selectAirProps AirProviderStatus.throws 25 = none := rfl

/-- Claim C5 (corrected): when the primary air-property provider is absent or
returns a non-positive or NaN viscosity, the computation uses the fallback
table (the input temperature is clamped to [0, 60] Celsius, values linearly
interpolated between bracketing breakpoints), and at 25 Celsius the fallback
equals the linear midpoint of the 20 and 30 Celsius rows; a provider that
throws, however, aborts the computation instead of falling back. -/
theorem claim_C5 :
    (∀ T : ℚ, T ≤ 0 → air_properties_lookup T = air_properties_lookup 0)
    ∧ (∀ T : ℚ, 60 ≤ T → air_properties_lookup T = air_properties_lookup 60)
    ∧ (∀ T : ℚ, selectAirProps AirProviderStatus.absent T
        = some (air_properties_lookup T))
    ∧ (∀ (rho mu : ℚ) (nan : Bool) (T : ℚ), mu ≤ 0 ∨ nan = true →
        selectAirProps (AirProviderStatus.returns rho mu nan) T
          = some (air_properties_lookup T))
    ∧ air_properties_lookup 25
        = (1204/1000 + (1/2) * (1165/1000 - 1204/1000),
           181/10000000 + (1/2) * (187/10000000 - 181/10000000)) := by
  refine ⟨fun T h => ?_, fun T h => ?_, fun T => rfl, fun rho mu nan T h => ?_, ?_⟩
  · have h1 : max (0:ℚ) (min 60 T) = 0 := by
      rw [min_eq_right (by linarith), max_eq_left h]
    have h2 : max (0:ℚ) (min 60 (0:ℚ)) = 0 := by norm_num
    rw [air_properties_lookup, air_properties_lookup, h1, h2]
  · have h1 : max (0:ℚ) (min 60 T) = 60 := by
      rw [min_eq_left h]; norm_num
    have h2 : max (0:ℚ) (min 60 (60:ℚ)) = 60 := by norm_num
    rw [air_properties_lookup, air_properties_lookup, h1, h2]
  · rw [selectAirProps, if_pos h]
  · have hT : max (0:ℚ) (min 60 25) = 25 := by
      rw [min_eq_right (by norm_num), max_eq_right (by norm_num)]
    rw [air_properties_lookup]
    norm_num [hT, airSegs, scanSegs]

/-- Witness for claim C5: clamping at -5 and 100 Celsius, fallback selection
with the provider absent and with an invalid (zero) viscosity, via the
theorem. -/
theorem claim_C5_witness :
    air_properties_lookup (-5) = air_properties_lookup 0
    ∧ air_properties_lookup 100 = air_properties_lookup 60
    ∧ selectAirProps AirProviderStatus.absent 25 = some (air_properties_lookup 25)
    ∧ selectAirProps (AirProviderStatus.returns 2 0 false) 25
        = some (air_properties_lookup 25) :=
  ⟨claim_C5.1 (-5) (by norm_num), claim_C5.2.1 100 (by norm_num),
   claim_C5.2.2.1 25, claim_C5.2.2.2.1 2 0 false 25 (Or.inl le_rfl)⟩

/-- Counterexample for claim C9: a CoilGeometry satisfying every data-model
validity invariant (all lengths positive, tube pitch 25.4 mm above tube OD
9.525 mm, one row, positive fin density) whose face width (20 mm) is below the
tube pitch: the derived total tube count is 0, not at least 1. -/
theorem claim_C9_counterexample :
    validCoilGeometry ⟨9525/1000000, 254/10000, 254/10000, 12/100000, 472, 1, 2/100, 1⟩
    ∧ (9525/1000000 : ℚ) < 254/10000
    ∧ 1 ≤ (1 : ℕ)
    ∧ total_tubes_calc (tubes_per_row_calc (2/100) (254/10000)) 1 = 0
    ∧ ¬ (1 ≤ total_tubes_calc (tubes_per_row_calc (2/100) (254/10000)) 1) := by
  refine ⟨?_, by norm_num, le_rfl, ?_, ?_⟩
  · norm_num [validCoilGeometry]
  · norm_num [total_tubes_calc, tubes_per_row_calc]
  · norm_num [total_tubes_calc, tubes_per_row_calc]

/-- Claim C9 (corrected): for every valid CoilGeometry with tube pitch > tube
OD, rows ≥ 1 and additionally tube pitch ≤ face width: tubes per row equals
`floor(face width / tube pitch)`, total tubes equals tubes-per-row times rows,
and total tubes is at least 1.  (Without the added face-width hypothesis the
tube count can be 0.) -/
theorem claim_C9 :
    ∀ g : CoilGeometry, validCoilGeometry g → g.tube_pitch_m ≤ g.face_width_m →
      tubes_per_row_calc g.face_width_m g.tube_pitch_m
          = ⌊g.face_width_m / g.tube_pitch_m⌋
      ∧ total_tubes_calc (tubes_per_row_calc g.face_width_m g.tube_pitch_m) g.num_rows
          = tubes_per_row_calc g.face_width_m g.tube_pitch_m * g.num_rows
      ∧ 1 ≤ tubes_per_row_calc g.face_width_m g.tube_pitch_m
      ∧ 1 ≤ total_tubes_calc (tubes_per_row_calc g.face_width_m g.tube_pitch_m)
              g.num_rows := by
  intro g hv hle
  obtain ⟨-, hp, -, -, -, hrows, -, -, -⟩ := hv
  have htpr : (1:ℤ) ≤ tubes_per_row_calc g.face_width_m g.tube_pitch_m := by
    rw [tubes_per_row_calc]
    refine Int.le_floor.mpr ?_
    push_cast
    exact (one_le_div hp).mpr hle
  refine ⟨rfl, rfl, htpr, ?_⟩
  have hr : (1:ℤ) ≤ (g.num_rows : ℤ) := by exact_mod_cast hrows
  rw [total_tubes_calc]
  nlinarith

/-- Witness for claim C9: a standard geometry (tube pitch 25.4 mm, face width
1 m, 4 rows) instantiating the theorem. -/
theorem claim_C9_witness :
    tubes_per_row_calc 1 (254/10000) = ⌊(1:ℚ) / (254/10000)⌋
    ∧ total_tubes_calc (tubes_per_row_calc 1 (254/10000)) 4
        = tubes_per_row_calc 1 (254/10000) * 4
    ∧ 1 ≤ tubes_per_row_calc 1 (254/10000)
    ∧ 1 ≤ total_tubes_calc (tubes_per_row_calc 1 (254/10000)) 4 :=
  claim_C9 ⟨9525/1000000, 254/10000, 254/10000, 12/100000, 472, 4, 1, 1⟩
    (by norm_num [validCoilGeometry]) (by norm_num)

/-- Counterexample for claim C3: with tube pitch 2000 mm (2 m) at or above the
1 m face width — the first situation in which the claim requires an
InvalidGeometry fault — the computation succeeds and silently returns zero
tubes per row; no fault of any kind is reported. -/
theorem claim_C3_counterexample :
    (calculate_air_side_results AirProviderStatus.absent
        ⟨9525/1000, 2000, 254/10, 12/100, 12, 4, 1, 1, 10000, 35, 25⟩).map
      (fun r => r.tubes_per_row) = some 0 := by
  norm_num [calculate_air_side_results, pyDiv, selectAirProps, air_properties_lookup,
    airSegs, scanSegs, bind, Option.bind, u_max_calc, Re_od_calc, hydraulic_diameter,
    dP_const_f, Option.map]

/-- Claim C3 (corrected): the geometry resolution never reports a fault: a
face width below the tube pitch silently yields zero tubes per row, and an
oversized tube relative to the fin area silently yields a negative net fin
area (here tube OD 200 mm, tube pitch 250 mm, one row: the computation
succeeds and the net fin area is negative). -/
theorem claim_C3 :
    (∀ w p : ℚ, 0 ≤ w → w < p → tubes_per_row_calc w p = 0)
    ∧ (calculate_air_side_results AirProviderStatus.absent
          ⟨200, 250, 254/10, 12/100, 12, 1, 1, 1, 10000, 35, 25⟩).map
        (fun r => decide (r.net_fin_area < 0)) = some true := by
  constructor
  · intro w p h0 hwp
    have hp : 0 < p := lt_of_le_of_lt h0 hwp
    rw [tubes_per_row_calc]
    rw [Int.floor_eq_zero_iff]
    exact ⟨div_nonneg h0 hp.le, (div_lt_one hp).mpr hwp⟩
  · norm_num [calculate_air_side_results, pyDiv, selectAirProps, air_properties_lookup,
      airSegs, scanSegs, bind, Option.bind, u_max_calc, Re_od_calc, hydraulic_diameter,
      dP_const_f, Option.map, pi_float]

/-- Witness for claim C3: face width 1 below tube pitch 2 yields zero tubes
per row, via the theorem; together with its concrete negative-net-fin-area
half. -/
theorem claim_C3_witness :
    tubes_per_row_calc 1 2 = 0
    ∧ (calculate_air_side_results AirProviderStatus.absent
          ⟨200, 250, 254/10, 12/100, 12, 1, 1, 1, 10000, 35, 25⟩).map
        (fun r => decide (r.net_fin_area < 0)) = some true :=
  ⟨claim_C3.1 1 2 (by norm_num) (by norm_num), claim_C3.2⟩

/-- Counterexample for claim C2: with a free-flow percentage of 0 the free-flow
area is 0, and the mass-flux division `G = m_dot / free_flow_area` of the MAIN
script is unguarded — the computation aborts with an arithmetic fault
(`none`) instead of returning a quiet zero with a DegenerateFlowArea flag
(no such flag exists anywhere in the code). -/
theorem claim_C2_counterexample :
    calculate_air_side_results AirProviderStatus.absent
      ⟨9525/1000, 254/10, 254/10, 12/100, 12, 4, 1, 1, 10000, 35, 0⟩ = none := by
  norm_num [calculate_air_side_results, pyDiv, selectAirProps, air_properties_lookup,
    airSegs, scanSegs, bind, Option.bind]

/-- Claim C2 (corrected): the RICH script guards the velocity division (a
non-positive free-flow area quietly yields velocity 0, with no flag), and the
MAIN script guards the maximum-velocity, Reynolds-number, hydraulic-diameter
and pressure-drop divisions with quiet zeros; but the face-velocity and
mass-flux divisions of the MAIN script are unguarded, so a zero frontal area
is an uncaught arithmetic fault, and no DegenerateFlowArea flag exists. -/
theorem claim_C2 :
    (∀ q A : ℚ, A ≤ 0 → air_velocity_ms q A = 0)
    ∧ (∀ fv p od : ℚ, p - od ≤ 0 → u_max_calc fv p od = 0)
    ∧ (∀ rho u od mu : ℚ, mu ≤ 0 → Re_od_calc rho u od mu = 0)
    ∧ (∀ (prov : AirProviderStatus) (inp : AirInputs),
        inp.fpi ≠ 0 → inp.tube_pitch_mm ≠ 0 →
        inp.face_width_m * inp.face_height_m = 0 →
        calculate_air_side_results prov inp = none) := by
  refine ⟨fun q A h => ?_, fun fv p od h => ?_, fun rho u od mu h => ?_,
    fun prov inp hf hp hfr => ?_⟩
  · rw [air_velocity_ms, if_neg (not_lt.mpr h)]
  · rw [u_max_calc, if_neg (not_lt.mpr h)]
  · rw [Re_od_calc, if_neg (not_lt.mpr h)]
  · have h1 : inp.fpi * (393701/10000) ≠ 0 := mul_ne_zero hf (by norm_num)
    have h2 : inp.tube_pitch_mm / 1000 ≠ 0 := div_ne_zero hp (by norm_num)
    simp [calculate_air_side_results, pyDiv, bind, Option.bind, h1, h2, hfr]

/-- Witness for claim C2: the guarded divisions at non-positive denominators
and the unguarded fault at a zero face width, via the theorem. -/
theorem claim_C2_witness :
    air_velocity_ms 5 0 = 0
    ∧ u_max_calc 3 1 2 = 0
    ∧ Re_od_calc 1 1 1 0 = 0
    ∧ calculate_air_side_results AirProviderStatus.absent
        ⟨9525/1000, 254/10, 254/10, 12/100, 12, 4, 0, 1, 10000, 35, 25⟩ = none :=
  ⟨claim_C2.1 5 0 le_rfl, claim_C2.2.1 3 1 2 (by norm_num),
   claim_C2.2.2.1 1 1 1 0 le_rfl,
   claim_C2.2.2.2 AirProviderStatus.absent _ (by norm_num) (by norm_num) (by norm_num)⟩

/-- Counterexample for claim C4: a successful degenerate run (outlet
temperature equal to the saturation temperature 353) of the first MAIN-script
heat-load handler: the subcool duty is 0 and h4 = h3, but no "no subcooling
occurs" warning is emitted, contradicting the claim that every successful
calculation emits one in the degenerate case. -/
theorem claim_C4_counterexample :
    (heat_load_main
        ⟨fun _ => some 353, fun _ => some 470000,
         fun q => if q = 1 then some 430000 else some 280000⟩
        (599/1000) 368 353).map (fun r => (r.Q_subcool, r.warn_no_subcool))
      = some (0, false) := by
  norm_num [heat_load_main, Option.map]

/-- Claim C4 (corrected): in the RICH script the claim holds in full — for
every successful run, h1 is taken at (pressure, inlet temperature) exactly
when inlet temperature is above T_sat and is the saturated-vapor enthalpy
otherwise; h4 is taken at (pressure, outlet temperature) exactly when outlet
temperature is below T_sat and equals h3 otherwise, with the
"no subcooling occurs" warning emitted exactly when outlet temperature is at
or above T_sat, in which case the subcool duty is exactly 0 and the total is
desuperheat + condense + 0.  The first MAIN-script handler performs the same
computation but never emits the warning. -/
theorem claim_C4 :
    ∀ (o : RefOracle) (m T1 T3 Tsat a b c d : ℚ),
      o.T_at_Q 0 = some Tsat → o.h_at_T T1 = some a → o.h_at_Q 1 = some b →
      o.h_at_Q 0 = some c → o.h_at_T T3 = some d →
      heat_load_rich o m T1 T3 =
        some ⟨Tsat, (if T1 > Tsat then a else b), b, c,
              (if T3 < Tsat then d else c),
              m * ((if T1 > Tsat then a else b) - b) / 1000,
              m * (b - c) / 1000,
              m * (c - (if T3 < Tsat then d else c)) / 1000,
              m * ((if T1 > Tsat then a else b) - b) / 1000 + m * (b - c) / 1000
                + m * (c - (if T3 < Tsat then d else c)) / 1000,
              decide (T3 ≥ Tsat)⟩
      ∧ (T3 ≥ Tsat →
          m * (c - (if T3 < Tsat then d else c)) / 1000 = 0
          ∧ decide (T3 ≥ Tsat) = true) := by
  intro o m T1 T3 Tsat a b c d hT ha hb hc hd
  constructor
  · by_cases h1 : T1 > Tsat <;> by_cases h4 : T3 < Tsat <;>
      simp [heat_load_rich, hT, ha, hb, hc, hd, h1, h4]
  · intro hge
    rw [if_neg (not_lt.mpr hge)]
    exact ⟨by ring, by simp [hge]⟩

/-- Witness for claim C4: a concrete oracle with saturation temperature 353,
inlet 368 (superheated) and outlet 350 (subcooled), instantiating the
theorem. -/
theorem claim_C4_witness :
    heat_load_rich
        ⟨fun _ => some 353, fun T => if T = 368 then some 470000 else some 300000,
         fun q => if q = 1 then some 430000 else some 280000⟩
        (599/1000) 368 350 =
      some ⟨353, (if (368:ℚ) > 353 then 470000 else 430000), 430000, 280000,
            (if (350:ℚ) < 353 then 300000 else 280000),
            (599/1000) * ((if (368:ℚ) > 353 then 470000 else 430000) - 430000) / 1000,
            (599/1000) * (430000 - 280000) / 1000,
            (599/1000) * (280000 - (if (350:ℚ) < 353 then 300000 else 280000)) / 1000,
            (599/1000) * ((if (368:ℚ) > 353 then 470000 else 430000) - 430000) / 1000
              + (599/1000) * (430000 - 280000) / 1000
              + (599/1000) * (280000 - (if (350:ℚ) < 353 then 300000 else 280000)) / 1000,
            decide ((350:ℚ) ≥ 353)⟩ :=
  (claim_C4
      ⟨fun _ => some 353, fun T => if T = 368 then some 470000 else some 300000,
       fun q => if q = 1 then some 430000 else some 280000⟩
      (599/1000) 368 350 353 470000 430000 280000 300000
      rfl (by norm_num) (by norm_num) (by norm_num) (by norm_num)).1

/-- Counterexample for claim C1: in the second (safe_props) MAIN-script
handler, the saturation-temperature lookup fails (`T_at_Q 0 = none`) while the
quality-based enthalpy lookups succeed — and a computed duty result is
produced anyway (h1 silently collapses to the saturated-vapor enthalpy and h4
to h3), instead of the whole result being invalidated with an error naming
the failing lookup. -/
theorem claim_C1_counterexample :
    RefOracle.T_at_Q
        ⟨fun _ => none, fun _ => some 0,
         fun q => if q = 1 then some 430000 else some 280000⟩ 0 = none
    ∧ heat_load_safe
        ⟨fun _ => none, fun _ => some 0,
         fun q => if q = 1 then some 430000 else some 280000⟩
        (599/1000) (36815/100) (32585/100)
      = Except.ok ⟨430000, 430000, 280000, 280000, 0, 1797/20, 0, 1797/20⟩ :=
  ⟨rfl, by norm_num [heat_load_safe, bubbleAndGt, bubbleAndLt]⟩

/-- Claim C1 (corrected): in the safe_props handler, the result is the single
generic enthalpy error exactly when one of the four SELECTED lookups fails —
h1's selected lookup (`h_at_T T1` on the superheat branch, the saturated-vapor
lookup otherwise), the saturated-vapor lookup (h2), the saturated-liquid
lookup (h3), or h4's selected lookup (`h_at_T T3` on the subcool branch, h3
otherwise); the error does not name the individual failing lookup.  A failed
saturation-temperature lookup alone is NOT surfaced: the handler silently
treats it as zero-width desuperheat and subcool zones (h1 becomes the
saturated-vapor enthalpy, h4 becomes h3) and still produces a computed duty
result. -/
theorem claim_C1 :
    (∀ (o : RefOracle) (m T1 T3 : ℚ),
        heat_load_safe o m T1 T3 = Except.error missingEnthalpyMsg ↔
          ((if bubbleAndGt (o.T_at_Q 0) T1 then o.h_at_T T1 else o.h_at_Q 1) = none
            ∨ o.h_at_Q 1 = none
            ∨ o.h_at_Q 0 = none
            ∨ (if bubbleAndLt (o.T_at_Q 0) T3 then o.h_at_T T3 else o.h_at_Q 0)
                = none))
    ∧ (∀ (o : RefOracle) (m T1 T3 hv hl : ℚ),
        o.T_at_Q 0 = none → o.h_at_Q 1 = some hv → o.h_at_Q 0 = some hl →
        heat_load_safe o m T1 T3 =
          Except.ok ⟨hv, hv, hl, hl, m * (hv - hv) / 1000, m * (hv - hl) / 1000,
               m * (hl - hl) / 1000,
               m * (hv - hv) / 1000 + m * (hv - hl) / 1000
                 + m * (hl - hl) / 1000⟩) := by
  constructor
  · intro o m T1 T3
    by_cases hg : bubbleAndGt (o.T_at_Q 0) T1 <;>
      by_cases hb : bubbleAndLt (o.T_at_Q 0) T3 <;>
      rcases h1 : o.h_at_T T1 with _ | a <;>
      rcases h2 : o.h_at_Q 1 with _ | b <;>
      rcases h3 : o.h_at_Q 0 with _ | c <;>
      rcases h4 : o.h_at_T T3 with _ | d <;>
      simp [heat_load_safe, hg, hb, h1, h2, h3, h4]
  · intro o m T1 T3 hv hl hT hq1 hq0
    simp [heat_load_safe, hT, hq1, hq0, bubbleAndGt, bubbleAndLt]

/-- Witness for claim C1, via the theorem: a missing saturated-vapor enthalpy
yields the generic error; a missing temperature-based inlet enthalpy on the
superheat branch yields it; a missing saturated-liquid enthalpy yields it;
and a failed saturation-temperature lookup with successful quality lookups
yields a computed result. -/
theorem claim_C1_witness :
    heat_load_safe ⟨fun _ => some 353, fun _ => some 1, fun _ => none⟩ 1 2 3
      = Except.error missingEnthalpyMsg
    ∧ heat_load_safe
        ⟨fun _ => some 353, fun _ => none,
         fun q => if q = 1 then some 430000 else some 280000⟩ 1 368 360
      = Except.error missingEnthalpyMsg
    ∧ heat_load_safe
        ⟨fun _ => some 353, fun _ => some 470000,
         fun q => if q = 1 then some 430000 else none⟩ 1 368 350
      = Except.error missingEnthalpyMsg
    ∧ heat_load_safe
        ⟨fun _ => none, fun _ => some 5,
         fun q => if q = 1 then some 400000 else some 250000⟩ 2 300 310 =
      Except.ok ⟨400000, 400000, 250000, 250000, 2 * (400000 - 400000) / 1000,
           2 * (400000 - 250000) / 1000, 2 * (250000 - 250000) / 1000,
           2 * (400000 - 400000) / 1000 + 2 * (400000 - 250000) / 1000
             + 2 * (250000 - 250000) / 1000⟩ :=
  ⟨(claim_C1.1 ⟨fun _ => some 353, fun _ => some 1, fun _ => none⟩ 1 2 3).mpr
     (Or.inr (Or.inl rfl)),
   (claim_C1.1 ⟨fun _ => some 353, fun _ => none,
       fun q => if q = 1 then some 430000 else some 280000⟩ 1 368 360).mpr
     (Or.inl (by norm_num [bubbleAndGt])),
   (claim_C1.1 ⟨fun _ => some 353, fun _ => some 470000,
       fun q => if q = 1 then some 430000 else none⟩ 1 368 350).mpr
     (Or.inr (Or.inr (Or.inl (by norm_num)))),
   claim_C1.2 ⟨fun _ => none, fun _ => some 5,
       fun q => if q = 1 then some 400000 else some 250000⟩ 2 300 310 400000 250000
     rfl (by norm_num) (by norm_num)⟩
